import Mathlib

/-!
Shallow embedding of the Longshot browser extension (popup script and the
Jira site handler, plus the session-orchestrator behaviour described by the
design document) together with proofs of the specification claims.

DOM state is modelled explicitly: a page carries the list of its elements in
document order, and each element carries the computed-style and geometry
attributes the handler reads.  `getBoundingClientRect` coordinates are
modelled as integers, so the `Math.round` calls of the source are the
identity and are omitted.
-/

namespace Longshot

/-- A bounding rectangle as returned by `getBoundingClientRect`. -/
structure Rect where
  left : Int
  right : Int
  top : Int
deriving DecidableEq

/-- A DOM element, restricted to the attributes the Jira handler reads:
computed `overflow-y` style, scroll metrics, offset size, and whether the
element matches each selector the handler queries. -/
structure Element where
  overflowY : String
  scrollHeight : Int
  clientHeight : Int
  offsetWidth : Int
  offsetHeight : Int
  isIssueView : Bool
  matchesIssuePanel : Bool
  matchesScrollableContainer : Bool
  matchesFoundationContent : Bool
  matchesCssOverflow : Bool
  matchesRoleMain : Bool
  rectLeft : Int
  rectRight : Int
  rectTop : Int
  rectWidth : Int
deriving DecidableEq

/-- The page state read by `JiraHandler.detect` and the container finders:
location facts, presence of the markers `detect` queries, the two sidebar
rectangles read by `getServerCenterBounds`, and the element list in document
order (the order `querySelectorAll` reports). -/
structure Page where
  hostnameAtlassian : Bool
  pathnameIssueBrowse : Bool
  hasIssueContent : Bool
  hasAuiPagePanel : Bool
  hasJiraMeta : Bool
  auiSidebarRect : Option Rect
  viewIssueSidebarRect : Option Rect
  dom : List Element
deriving DecidableEq

/-- Result of `JiraHandler.detect`: the `detected` flag and the `type`
field, which is absent when not detected. -/
structure Detection where
  detected : Bool
  type : Option String
deriving DecidableEq

/-- The record returned by the scroll-container finders. -/
structure ScrollContainer where
  element : Element
  type : String
  scrollHeight : Int
  clientHeight : Int
deriving DecidableEq

/-- The record returned by the center-bounds functions. -/
structure CenterBounds where
  left : Int
  right : Int
  top : Int
  width : Int
  scrollHeight : Int
  clientHeight : Int
deriving DecidableEq

namespace JiraHandler

/-- `JiraHandler.detect`: Cloud by hostname and issue path, then Server/DC by
the three AUI DOM markers, then the generic Jira-marker fallback. -/
def detect (p : Page) : Detection :=
  if p.hostnameAtlassian ∧ p.pathnameIssueBrowse then
    { detected := true, type := some ("jira-cloud") }
  else if p.hasIssueContent ∧ (p.dom.any fun e => e.isIssueView) ∧ p.hasAuiPagePanel then
    { detected := true, type := some ("jira-server") }
  else if p.hasJiraMeta then
    { detected := true, type := some ("jira-unknown") }
  else
    { detected := false, type := none }

/-- The overflow test shared by all three finders:
`style.overflowY === 'auto' || style.overflowY === 'scroll'`. -/
def hasOverflowAuto (e : Element) : Prop :=
  e.overflowY = "auto" ∨ e.overflowY = "scroll"

instance (e : Element) : Decidable (hasOverflowAuto e) := by
  unfold hasOverflowAuto; infer_instance

/-- `JiraHandler.findServerScrollContainer`: query `.issue-view`, require
overflow plus `scrollHeight > clientHeight + 10`. -/
def findServerScrollContainer (p : Page) : Option ScrollContainer :=
  match p.dom.find? (fun e => e.isIssueView) with
  | none => none
  | some issueView =>
    if hasOverflowAuto issueView ∧ issueView.scrollHeight > issueView.clientHeight + 10 then
      some { element := issueView, type := "jira-server",
             scrollHeight := issueView.scrollHeight, clientHeight := issueView.clientHeight }
    else none

/-- Which elements match the `i`-th entry of the Cloud selector list of
`findCloudScrollContainer`. -/
def cloudSelectorMatch : Nat → Element → Bool
  | 0, e => e.matchesIssuePanel
  | 1, e => e.matchesScrollableContainer
  | 2, e => e.matchesFoundationContent
  | 3, e => e.matchesCssOverflow
  | 4, e => e.matchesRoleMain
  | _, _ => false

/-- The inner loop of `findCloudScrollContainer` for one selector: the first
matching element that passes the overflow and `+ 10` scrollability tests. -/
def scrollableFromCloudSelector (p : Page) (i : Nat) : Option ScrollContainer :=
  (p.dom.filter (cloudSelectorMatch i)).findSome? fun e =>
    if hasOverflowAuto e ∧ e.scrollHeight > e.clientHeight + 10 then
      some { element := e, type := "jira-cloud",
             scrollHeight := e.scrollHeight, clientHeight := e.clientHeight }
    else none

/-- One step of the scan of `findLargestScrollableElement`: skip elements
smaller than 200x200, keep the scrollable element (overflow plus
`scrollHeight > clientHeight + 50`) with the largest scroll height seen. -/
def betterScrollable (acc : Option Element × Int) (e : Element) : Option Element × Int :=
  if e.offsetWidth < 200 ∨ e.offsetHeight < 200 then acc
  else if hasOverflowAuto e ∧ e.scrollHeight > e.clientHeight + 50 ∧ e.scrollHeight > acc.2 then
    (some e, e.scrollHeight)
  else acc

/-- `JiraHandler.findLargestScrollableElement`: fold over every element of
the document. -/
def findLargestScrollableElement (p : Page) : Option ScrollContainer :=
  match (p.dom.foldl betterScrollable (none, 0)).1 with
  | some best =>
    some { element := best, type := "jira-fallback",
           scrollHeight := best.scrollHeight, clientHeight := best.clientHeight }
  | none => none

/-- `JiraHandler.findCloudScrollContainer`: try the five selectors in order,
then fall back to the largest scrollable element. -/
def findCloudScrollContainer (p : Page) : Option ScrollContainer :=
  match (List.range 5).findSome? (scrollableFromCloudSelector p) with
  | some r => some r
  | none => findLargestScrollableElement p

/-- `JiraHandler.findScrollContainer`: return `null` when not detected,
dispatch on the detection type, and for an unknown Jira type try the Server
finder and then the Cloud finder. -/
def findScrollContainer (p : Page) : Option ScrollContainer :=
  let d := detect p
  if d.detected = false then none
  else if d.type = some ("jira-server") then findServerScrollContainer p
  else if d.type = some ("jira-cloud") then findCloudScrollContainer p
  else
    match findServerScrollContainer p with
    | some r => some r
    | none => findCloudScrollContainer p

/-- `JiraHandler.getServerCenterBounds`: bounds from `.issue-view` and the
two sidebars. -/
def getServerCenterBounds (p : Page) : Option CenterBounds :=
  match p.dom.find? (fun e => e.isIssueView) with
  | none => none
  | some issueView =>
    let leftBound : Int :=
      match p.auiSidebarRect with
      | some r => r.right
      | none => 0
    let rightBound : Int :=
      match p.viewIssueSidebarRect with
      | some r => r.left
      | none => issueView.rectRight
    some { left := leftBound, right := rightBound, top := issueView.rectTop,
           width := rightBound - leftBound,
           scrollHeight := issueView.scrollHeight, clientHeight := issueView.clientHeight }

/-- Bounds record built by `getCloudCenterBounds` from the main content
element. -/
def cloudBoundsOf (m : Element) : CenterBounds :=
  { left := m.rectLeft, right := m.rectRight, top := m.rectTop, width := m.rectWidth,
    scrollHeight := m.scrollHeight, clientHeight := m.clientHeight }

/-- `JiraHandler.getCloudCenterBounds`: the foundation-content selector,
falling back to `[role="main"]`. -/
def getCloudCenterBounds (p : Page) : Option CenterBounds :=
  match p.dom.find? (fun e => e.matchesFoundationContent) with
  | some m => some (cloudBoundsOf m)
  | none =>
    match p.dom.find? (fun e => e.matchesRoleMain) with
    | some m => some (cloudBoundsOf m)
    | none => none

/-- `JiraHandler.getCenterBounds`: dispatch on the detection type; only the
Server and Cloud types reach a bounds computation. -/
def getCenterBounds (p : Page) : Option CenterBounds :=
  let d := detect p
  if d.type = some ("jira-server") then getServerCenterBounds p
  else if d.type = some ("jira-cloud") then getCloudCenterBounds p
  else none

end JiraHandler

namespace Popup

/-- The scheme block list of `isCapturableUrl` in `popup.js`. -/
def restrictedSchemes : List String :=
  ["chrome://", "chrome-extension://", "brave://",
   "edge://", "opera://", "about:", "view-source:", "file://"]

/-- JavaScript `String.prototype.startsWith`, on character sequences. -/
def jsStartsWith (s pre : String) : Bool :=
  pre.data.isPrefixOf s.data

/-- `isCapturableUrl` from `popup.js`: an absent or empty URL is not
capturable (`if (!url) return false`), otherwise the URL is capturable
exactly when it starts with none of the restricted schemes. -/
def isCapturableUrl : Option String → Bool
  | none => false
  | some u => if u = "" then false else !(restrictedSchemes.any fun s => jsStartsWith u s)

/-- `checkCurrentTabUrl` from `popup.js`, reduced to its decision: given the
active-tab query result (the URLs of the matching tabs), whether the capture
button is disabled and the restricted-page message shown. -/
def checkCurrentTabUrl (tabUrls : List (Option String)) : Bool :=
  match tabUrls with
  | [] => false
  | u :: _ => !(isCapturableUrl u)

/-- The session record read back by `GET_CAPTURE_STATUS` in `popup.js`. -/
structure CaptureStatusRecord where
  status : String
  message : Option String
  progress : Option Int
  timestamp : Option Int
deriving DecidableEq

/-- The popup view state that `checkActiveCaptureState` decides. -/
structure ActiveStateView where
  statusShown : Bool
  captureBtnDisabled : Bool
deriving DecidableEq

/-- `checkActiveCaptureState` from `popup.js`: a fresh (younger than 60000
ms) non-terminal record shows status and disables the capture button; a just
completed record (younger than 5000 ms) shows status only; everything else
leaves the popup untouched (button enabled). -/
def checkActiveCaptureState (resp : Option CaptureStatusRecord) (now : Int) : ActiveStateView :=
  match resp with
  | none => { statusShown := false, captureBtnDisabled := false }
  | some st =>
    let age : Int := now - (st.timestamp.getD 0)
    if age < 60000 ∧ st.status ≠ "completed" ∧ st.status ≠ "error" then
      { statusShown := true, captureBtnDisabled := true }
    else if st.status = "completed" ∧ age < 5000 then
      { statusShown := true, captureBtnDisabled := false }
    else
      { statusShown := false, captureBtnDisabled := false }

/-- The `statusTextMap` lookup of `showCaptureStatus`, with its
`'Processing...'` default. -/
def defaultStatusText (status : String) : String :=
  if status = "started" then "Starting capture..."
  else if status = "preparing" then "Preparing page..."
  else if status = "stabilizing" then "Expanding content..."
  else if status = "capturing" then "Capturing viewports..."
  else if status = "stitching" then "Stitching images..."
  else if status = "downloading" then "Downloading..."
  else if status = "completed" then "Capture complete!"
  else if status = "error" then "Error occurred"
  else "Processing..."

/-- The status text computed by `showCaptureStatus`: the message when
present and non-empty, else the map default; the progress percentage is
appended only when progress is present and the status is `capturing`. -/
def showCaptureStatusText (status : String) (message : Option String) (progress : Option Int) :
    String :=
  let base : String :=
    match message with
    | some m => if m = "" then defaultStatusText status else m
    | none => defaultStatusText status
  match progress with
  | some pr => if status = "capturing" then base ++ " (" ++ toString pr ++ "%)" else base
  | none => base

/-- A `chrome.runtime.sendMessage` request, restricted to its `type` tag. -/
structure RuntimeMessage where
  type : String
deriving DecidableEq

/-- The message `handleJiraCenterCapture` in `popup.js` sends to the
background orchestrator. -/
def jiraCenterCaptureMessage : RuntimeMessage :=
  { type := "START_JIRA_CENTER_CAPTURE" }

/-- The response shape of the capture-start messages. -/
structure StartCaptureResponse where
  success : Bool
  sessionId : Option String
  error : Option String
deriving DecidableEq

/-- Outcome of the popup's center-capture handler. -/
inductive CenterCaptureOutcome where
  | started (sessionId : Option String)
  | failed (message : String)
deriving DecidableEq

/-- The response handling of `handleJiraCenterCapture`: a missing response
rejects, a successful response starts the capture carrying the response's
session identifier, and a failure surfaces `response.error` or the default
text. -/
def handleJiraCenterCapture (resp : Option StartCaptureResponse) : CenterCaptureOutcome :=
  match resp with
  | none => .failed ("No response from background")
  | some r =>
    if r.success then .started r.sessionId
    else
      .failed (match r.error with
        | some e => if e = "" then "Jira center capture failed" else e
        | none => "Jira center capture failed")

end Popup

namespace Orchestrator

/-- Modelled from the spec: the Session Orchestrator's status enum
(`background.js` is not in the source tree); `completed` and `error` are the
terminal states. -/
inductive SessionStatus where
  | idle
  | preparing
  | stabilizing
  | capturing
  | stitching
  | finalizing
  | completed
  | error
deriving DecidableEq

/-- A status is terminal exactly for `completed` and `error`; an Active
session is one in a non-terminal status. -/
def SessionStatus.isTerminal : SessionStatus → Bool
  | .completed => true
  | .error => true
  | _ => false

/-- Modelled from the spec: the CaptureSession record kept by the
orchestrator, restricted to the fields session identity, requesting tab and
status. -/
structure CaptureSession where
  sessionId : Nat
  tabId : Nat
  status : SessionStatus
deriving DecidableEq

/-- Whether some session in the store is Active for the given tab. -/
def isActiveFor (sessions : List CaptureSession) (tab : Nat) : Bool :=
  sessions.any fun s => s.tabId == tab && !s.status.isTerminal

/-- How many sessions in the store are Active for the given tab. -/
def countActiveFor (sessions : List CaptureSession) (tab : Nat) : Nat :=
  (sessions.filter fun s => s.tabId == tab && !s.status.isTerminal).length

/-- Modelled from the spec: the `START_CAPTURE` entry point of the Session
Orchestrator (`background.js` is not in the source tree).  A request while a
session for the same tab is Active is rejected with a capture-already-active
error, leaving the store unchanged; otherwise a new session is created in
`preparing`. -/
def startCapture (sessions : List CaptureSession) (tab : Nat) (newId : Nat) :
    List CaptureSession × Except String Nat :=
  if isActiveFor sessions tab then
    (sessions, .error ("capture already active"))
  else
    ({ sessionId := newId, tabId := tab, status := .preparing } :: sessions, .ok newId)

/-- Modelled from the spec: the CompositeBuffer of the Stitching Engine
(`offscreen.js` is not in the source tree): current height, width, and the
hard height ceiling. -/
structure CompositeBuffer where
  width : Nat
  height : Nat
  maxHeight : Nat
deriving DecidableEq

/-- Result signal of an append. -/
inductive AppendResult where
  | ok
  | capacityExceeded
deriving DecidableEq

/-- Modelled from the spec: `appendFrame` of the Stitching Engine.  An
append that would push the height past the ceiling is rejected with
`CapacityExceeded`; per the boundary requirement the composite is filled to
exactly the ceiling, never above it, and stays usable for a partial
finish. -/
def appendFrame (buf : CompositeBuffer) (rows : Nat) : CompositeBuffer × AppendResult :=
  if buf.maxHeight < buf.height + rows then
    ({ buf with height := buf.maxHeight }, .capacityExceeded)
  else
    ({ buf with height := buf.height + rows }, .ok)

/-- Modelled from the spec: `finish` encodes the composite; its output
height is the buffer height. -/
def finish (buf : CompositeBuffer) : Nat :=
  buf.height

/-- Modelled from the spec: the session's append loop, which stops at the
first `CapacityExceeded` and finishes with a partial result. -/
def appendAll (buf : CompositeBuffer) : List Nat → CompositeBuffer × AppendResult
  | [] => (buf, .ok)
  | rows :: rest =>
    match appendFrame buf rows with
    | (b, .ok) => appendAll b rest
    | (b, .capacityExceeded) => (b, .capacityExceeded)

/-- Modelled from the spec: the scroll step size, `visible − overlap`. -/
def stepSize (visible overlap : Nat) : Nat :=
  visible - overlap

/-- Modelled from the spec: `scrollTo` settles at the requested offset
capped to the end of content (`scrollHeight − clientHeight`). -/
def settledOffset (scrollHeight clientHeight requested : Nat) : Nat :=
  min requested (scrollHeight - clientHeight)

/-- Modelled from the spec: the scroll/capture loop of the Session
Orchestrator (`background.js` is not in the source tree).  Each iteration
scrolls to the requested offset, records the (requested, settled) pair, and
advances by the step size; it terminates when the settled offset no longer
increases or the capture-attempt budget is spent. -/
def scrollLoopGo (scrollHeight clientHeight overlap : Nat) :
    Nat → Nat → Option Nat → List (Nat × Nat)
  | 0, _, _ => []
  | fuel + 1, requested, lastSettled =>
    let s := settledOffset scrollHeight clientHeight requested
    match lastSettled with
    | some l =>
      if s ≤ l then []
      else (requested, s) ::
        scrollLoopGo scrollHeight clientHeight overlap fuel
          (requested + stepSize clientHeight overlap) (some s)
    | none =>
      (requested, s) ::
        scrollLoopGo scrollHeight clientHeight overlap fuel
          (requested + stepSize clientHeight overlap) (some s)

/-- The frames the capture loop produces, as (requested offset, settled
offset) pairs, starting at offset 0 with the given attempt budget. -/
def frameOffsets (scrollHeight clientHeight overlap fuel : Nat) : List (Nat × Nat) :=
  scrollLoopGo scrollHeight clientHeight overlap fuel 0 none

/-- Height of the composite stitched from the given frames: offsets are
authoritative, so each frame of height `clientHeight` at settled offset `s`
covers rows up to `s + clientHeight`. -/
def compositeHeightOf (frames : List (Nat × Nat)) (clientHeight : Nat) : Nat :=
  frames.foldl (fun h f => max h (f.2 + clientHeight)) 0

end Orchestrator

/-! ## Theorems -/

namespace Orchestrator

/-- Helper: an append loop whose frames overshoot the ceiling ends exactly at
the ceiling with a `CapacityExceeded` signal. -/
theorem appendAll_overflow (frames : List Nat) : ∀ buf : CompositeBuffer,
    buf.height ≤ buf.maxHeight → buf.maxHeight < buf.height + frames.sum →
    (appendAll buf frames).1.height = buf.maxHeight
      ∧ (appendAll buf frames).2 = AppendResult.capacityExceeded := by
  induction frames with
  | nil =>
    intro buf h hlt
    simp only [List.sum_nil] at hlt
    omega
  | cons r rest ih =>
    intro buf h hlt
    by_cases hc : buf.maxHeight < buf.height + r
    · simp [appendAll, appendFrame, hc]
    · have hrec := ih { buf with height := buf.height + r }
        (by simpa using Nat.le_of_not_lt hc)
        (by simp only [List.sum_cons] at hlt
            show buf.maxHeight < buf.height + r + rest.sum
            omega)
      simpa [appendAll, appendFrame, hc] using hrec

/-- C1: a `START_CAPTURE` request for a tab with an Active session is
rejected with the capture-already-active error and leaves the session store
unchanged (the first session proceeds unaffected), and `startCapture`
preserves the at-most-one-Active-session-per-tab invariant. -/
theorem claim_C1_single_active_session (sessions : List CaptureSession) (tab newId : Nat) :
    (isActiveFor sessions tab = true →
      startCapture sessions tab newId = (sessions, Except.error ("capture already active")))
    ∧ (countActiveFor sessions tab ≤ 1 →
        countActiveFor (startCapture sessions tab newId).1 tab ≤ 1) := by
  constructor
  · intro h
    simp [startCapture, h]
  · intro _
    by_cases ha : isActiveFor sessions tab = true
    · simp [startCapture, ha]
      omega
    · have hall : ∀ s ∈ sessions, (s.tabId == tab && !s.status.isTerminal) = false := by
        have := List.any_eq_false.mp (Bool.eq_false_iff.mpr ha)
        intro s hs
        exact Bool.eq_false_iff.mpr (this s hs)
      have hfilter : (sessions.filter fun s => s.tabId == tab && !s.status.isTerminal) = [] :=
        List.filter_eq_nil_iff.mpr (by intro a hx; simp [hall a hx])
      simp [startCapture, ha, countActiveFor, List.filter_cons, hfilter,
        SessionStatus.isTerminal]
      intro a hx htab
      have hfa := hall a hx
      simp [htab, SessionStatus.isTerminal] at hfa
      exact hfa

/-- C1 witness: with one Active `capturing` session on tab 7, a second
request is rejected with the capture-already-active error, and the invariant
is preserved. -/
theorem claim_C1_witness :
    isActiveFor [{ sessionId := 1, tabId := 7, status := SessionStatus.capturing }] 7 = true
    ∧ startCapture [{ sessionId := 1, tabId := 7, status := SessionStatus.capturing }] 7 2
        = ([{ sessionId := 1, tabId := 7, status := SessionStatus.capturing }],
           Except.error ("capture already active"))
    ∧ countActiveFor
        (startCapture [{ sessionId := 1, tabId := 7, status := SessionStatus.capturing }] 7 2).1
        7 ≤ 1 := by
  refine ⟨by decide, ?_, ?_⟩
  · exact (claim_C1_single_active_session
      [{ sessionId := 1, tabId := 7, status := SessionStatus.capturing }] 7 2).1 (by decide)
  · exact (claim_C1_single_active_session
      [{ sessionId := 1, tabId := 7, status := SessionStatus.capturing }] 7 2).2 (by decide)

/-- C2: an `appendFrame` that would push the composite past the ceiling
signals `CapacityExceeded` (and only such an append does); the height never
exceeds the ceiling; a rejected append leaves the buffer usable for a
partial finish exactly at the ceiling; and a frame sequence taller than the
remaining capacity ends with the composite height exactly at the ceiling and
a `CapacityExceeded` outcome. -/
theorem claim_C2_capacity_ceiling (buf : CompositeBuffer) (rows : Nat) (frames : List Nat)
    (h : buf.height ≤ buf.maxHeight) :
    ((appendFrame buf rows).2 = AppendResult.capacityExceeded
        ↔ buf.maxHeight < buf.height + rows)
    ∧ (appendFrame buf rows).1.height ≤ buf.maxHeight
    ∧ ((appendFrame buf rows).2 = AppendResult.capacityExceeded →
        finish (appendFrame buf rows).1 = buf.maxHeight)
    ∧ (buf.maxHeight < buf.height + frames.sum →
        (appendAll buf frames).1.height = buf.maxHeight
          ∧ (appendAll buf frames).2 = AppendResult.capacityExceeded) := by
  refine ⟨?_, ?_, ?_, fun hover => appendAll_overflow frames buf h hover⟩
  · constructor
    · intro he
      by_contra hc
      simp [appendFrame, hc] at he
    · intro hlt
      simp [appendFrame, hlt]
  · by_cases hc : buf.maxHeight < buf.height + rows
    · simp [appendFrame, hc]
    · simp [appendFrame, hc]
      omega
  · intro he
    by_cases hc : buf.maxHeight < buf.height + rows
    · simp [appendFrame, finish, hc]
    · simp [appendFrame, hc] at he

/-- C2 witness: on a buffer at height 31500 with ceiling 32000, appending an
800-row frame is rejected with `CapacityExceeded`, the buffer finishes at
exactly 32000, and a whole over-tall page ends exactly at the ceiling. -/
theorem claim_C2_witness :
    ((appendFrame { width := 1280, height := 31500, maxHeight := 32000 } 800).2
        = AppendResult.capacityExceeded ↔ 32000 < 31500 + 800)
    ∧ (appendFrame { width := 1280, height := 31500, maxHeight := 32000 } 800).1.height ≤ 32000
    ∧ ((appendFrame { width := 1280, height := 31500, maxHeight := 32000 } 800).2
          = AppendResult.capacityExceeded →
        finish (appendFrame { width := 1280, height := 31500, maxHeight := 32000 } 800).1
          = 32000)
    ∧ (32000 < 31500 + [800, 800].sum →
        (appendAll { width := 1280, height := 31500, maxHeight := 32000 } [800, 800]).1.height
            = 32000
          ∧ (appendAll { width := 1280, height := 31500, maxHeight := 32000 } [800, 800]).2
            = AppendResult.capacityExceeded) :=
  claim_C2_capacity_ceiling { width := 1280, height := 31500, maxHeight := 32000 } 800
    [800, 800] (by decide)

/-- C3: the scroll/capture loop advances by `visible − overlap`: with
`scrollHeight = 2000`, `clientHeight = 800`, `overlap = 75`, the step is
725, the frames are requested at offsets 0, 725, 1450 (the last settling at
1200, the end of content), and the stitched composite has height exactly
2000. -/
theorem claim_C3_scroll_offsets :
    stepSize 800 75 = 725
    ∧ frameOffsets 2000 800 75 100 = [(0, 0), (725, 725), (1450, 1200)]
    ∧ settledOffset 2000 800 1450 = 2000 - 800
    ∧ compositeHeightOf (frameOffsets 2000 800 75 100) 800 = 2000 := by
  refine ⟨by decide, by decide, by decide, by decide⟩

end Orchestrator

namespace Popup

/-- Helper: a URL that starts with `p` cannot also start with `q` when
neither of `p`, `q` is a character-prefix of the other. -/
theorem jsStartsWith_disjoint (u p q : String)
    (hp : jsStartsWith u p = true)
    (h1 : q.data.isPrefixOf p.data = false) (h2 : p.data.isPrefixOf q.data = false) :
    jsStartsWith u q = false := by
  unfold jsStartsWith at hp ⊢
  by_contra hq
  have hq' : q.data.isPrefixOf u.data = true := by simpa using hq
  have hpu := List.isPrefixOf_iff_prefix.mp hp
  have hqu := List.isPrefixOf_iff_prefix.mp hq'
  rcases List.prefix_or_prefix_of_prefix hqu hpu with h | h
  · have hx := List.isPrefixOf_iff_prefix.mpr h
    rw [hx] at h1
    simp at h1
  · have hx := List.isPrefixOf_iff_prefix.mpr h
    rw [hx] at h2
    simp at h2

/-- Helper: an http or https URL starts with none of the restricted
schemes. -/
theorem http_no_restricted_scheme (u : String)
    (hp : jsStartsWith u ("http://") = true ∨ jsStartsWith u ("https://") = true) :
    ∀ s ∈ restrictedSchemes, jsStartsWith u s = false := by
  intro s hs
  rcases hp with hp | hp <;>
    fin_cases hs <;>
    exact jsStartsWith_disjoint u _ _ hp (by decide) (by decide)

/-- C10: `isCapturableUrl` is false exactly for an absent or empty URL or
one starting with a restricted scheme; any http or https URL is capturable;
and the popup disables the capture button exactly when the first queried tab
has a non-capturable URL. -/
theorem claim_C10_capturable_url (u : String) (tabUrls : List (Option String)) :
    isCapturableUrl none = false
    ∧ (isCapturableUrl (some u) = false
        ↔ u = "" ∨ (restrictedSchemes.any fun s => jsStartsWith u s) = true)
    ∧ ((jsStartsWith u ("http://") = true ∨ jsStartsWith u ("https://") = true) →
        isCapturableUrl (some u) = true)
    ∧ (checkCurrentTabUrl tabUrls = true
        ↔ ∃ t, tabUrls.head? = some t ∧ isCapturableUrl t = false) := by
  refine ⟨rfl, ?_, ?_, ?_⟩
  · by_cases he : u = ""
    · simp [isCapturableUrl, he]
    · simp [isCapturableUrl, he]
  · intro hp
    have hnone := http_no_restricted_scheme u hp
    have hany : (restrictedSchemes.any fun s => jsStartsWith u s) = false :=
      List.any_eq_false.mpr (by intro s hs; simp [hnone s hs])
    have hne : u ≠ "" := by
      rcases hp with hp | hp <;>
        · intro he
          subst he
          simp [jsStartsWith] at hp
    simp [isCapturableUrl, hne, hany]
  · cases tabUrls with
    | nil => simp [checkCurrentTabUrl]
    | cons t rest => simp [checkCurrentTabUrl]

/-- C10 witness: a chrome URL and an empty URL are not capturable, an https
URL is, and a restricted first tab disables the capture button. -/
theorem claim_C10_witness :
    isCapturableUrl none = false
    ∧ (isCapturableUrl (some ("chrome://settings")) = false
        ↔ "chrome://settings" = ""
          ∨ (restrictedSchemes.any fun s => jsStartsWith ("chrome://settings") s) = true)
    ∧ isCapturableUrl (some ("https://example.com/page")) = true
    ∧ (checkCurrentTabUrl [some ("chrome://settings")] = true
        ↔ ∃ t, [some ("chrome://settings")].head? = some t ∧ isCapturableUrl t = false) :=
  ⟨(claim_C10_capturable_url ("chrome://settings") [some ("chrome://settings")]).1,
   (claim_C10_capturable_url ("chrome://settings") [some ("chrome://settings")]).2.1,
   (claim_C10_capturable_url ("https://example.com/page") []).2.2.1 (Or.inr (by decide)),
   (claim_C10_capturable_url ("chrome://settings") [some ("chrome://settings")]).2.2.2⟩

/-- C7: a non-terminal session record younger than 60000 ms shows its status
and disables the capture button; a non-terminal record at least 60000 ms old
is treated as abandoned, showing nothing and leaving the capture button
enabled. -/
theorem claim_C7_stale_session_abandoned (st : CaptureStatusRecord) (now : Int)
    (hterm1 : st.status ≠ "completed") (hterm2 : st.status ≠ "error") :
    (now - st.timestamp.getD 0 < 60000 →
      checkActiveCaptureState (some st) now
        = { statusShown := true, captureBtnDisabled := true })
    ∧ (60000 ≤ now - st.timestamp.getD 0 →
      checkActiveCaptureState (some st) now
        = { statusShown := false, captureBtnDisabled := false }) := by
  constructor
  · intro hage
    simp [checkActiveCaptureState, hage, hterm1, hterm2]
  · intro hage
    have h1 : ¬(now - st.timestamp.getD 0 < 60000) := by omega
    simp [checkActiveCaptureState, h1, hterm1]

/-- C7 witness: a `capturing` record stamped at 1000 is abandoned when read
at 70000 (button enabled) and active when read at 2000 (button disabled). -/
theorem claim_C7_witness :
    checkActiveCaptureState
        (some { status := "capturing", message := none, progress := none,
                timestamp := some 1000 }) 70000
      = { statusShown := false, captureBtnDisabled := false }
    ∧ checkActiveCaptureState
        (some { status := "capturing", message := none, progress := none,
                timestamp := some 1000 }) 2000
      = { statusShown := true, captureBtnDisabled := true } :=
  ⟨(claim_C7_stale_session_abandoned
      { status := "capturing", message := none, progress := none, timestamp := some 1000 }
      70000 (by decide) (by decide)).2 (by decide),
   (claim_C7_stale_session_abandoned
      { status := "capturing", message := none, progress := none, timestamp := some 1000 }
      2000 (by decide) (by decide)).1 (by decide)⟩

/-- C8: the numeric progress percentage is appended to the shown status text
exactly when the status is `capturing` and a progress value is present; for
any other status, or absent progress, the text is unchanged. -/
theorem claim_C8_progress_only_capturing (status : String) (message : Option String)
    (progress : Option Int) :
    (∀ pr : Int, progress = some pr → status = "capturing" →
      showCaptureStatusText status message progress
        = showCaptureStatusText status message none ++ (" (" ++ toString pr ++ "%)"))
    ∧ ((status ≠ "capturing" ∨ progress = none) →
      showCaptureStatusText status message progress
        = showCaptureStatusText status message none) := by
  constructor
  · intro pr hpr hst
    subst hpr
    subst hst
    simp [showCaptureStatusText, String.append_assoc]
  · rintro (h | h)
    · cases progress <;> simp [showCaptureStatusText, h]
    · subst h
      rfl

/-- C8 witness: at status `capturing` with progress 40 the percentage is
appended; at status `stitching` with progress 40 it is not. -/
theorem claim_C8_witness :
    showCaptureStatusText ("capturing") none (some 40)
      = showCaptureStatusText ("capturing") none none ++ (" (" ++ toString (40 : Int) ++ "%)")
    ∧ showCaptureStatusText ("stitching") none (some 40)
      = showCaptureStatusText ("stitching") none none :=
  ⟨(claim_C8_progress_only_capturing ("capturing") none (some 40)).1 40 rfl rfl,
   (claim_C8_progress_only_capturing ("stitching") none (some 40)).2 (Or.inl (by decide))⟩

/-- C5 counterexample: the popup's site-center capture button sends the
message kind `START_JIRA_CENTER_CAPTURE`, not `START_SITE_CENTER_CAPTURE`
as the claim states. -/
theorem claim_C5_counterexample :
    jiraCenterCaptureMessage.type = "START_JIRA_CENTER_CAPTURE"
    ∧ jiraCenterCaptureMessage.type ≠ "START_SITE_CENTER_CAPTURE" :=
  ⟨rfl, by decide⟩

/-- C5 amended: the site-specific center capture is initiated by a message
of kind `START_JIRA_CENTER_CAPTURE`, and a successful response carries the
session identifier through to the started outcome. -/
theorem claim_C5_amended (r : StartCaptureResponse) (h : r.success = true) :
    jiraCenterCaptureMessage.type = "START_JIRA_CENTER_CAPTURE"
    ∧ handleJiraCenterCapture (some r) = CenterCaptureOutcome.started r.sessionId :=
  ⟨rfl, by simp [handleJiraCenterCapture, h]⟩

/-- C5 witness: a successful response with session id `abc123` starts the
capture carrying that id. -/
theorem claim_C5_witness :
    jiraCenterCaptureMessage.type = "START_JIRA_CENTER_CAPTURE"
    ∧ handleJiraCenterCapture
        (some { success := true, sessionId := some ("abc123"), error := none })
      = CenterCaptureOutcome.started (some ("abc123")) :=
  claim_C5_amended { success := true, sessionId := some ("abc123"), error := none } rfl

end Popup

namespace JiraHandler

/-- Helper: a record returned by the Server finder passes the overflow test
and exceeds the client height by more than 10. -/
theorem findServerScrollContainer_sound (p : Page) (r : ScrollContainer)
    (h : findServerScrollContainer p = some r) :
    hasOverflowAuto r.element ∧ r.element.scrollHeight > r.element.clientHeight + 10 := by
  unfold findServerScrollContainer at h
  split at h
  next => simp at h
  next =>
    split at h
    next hc => cases h; exact hc
    next => simp at h

/-- Helper: a record returned by the per-selector Cloud scan passes the
overflow test and exceeds the client height by more than 10. -/
theorem scrollableFromCloudSelector_sound (p : Page) (i : Nat) (r : ScrollContainer)
    (h : scrollableFromCloudSelector p i = some r) :
    hasOverflowAuto r.element ∧ r.element.scrollHeight > r.element.clientHeight + 10 := by
  unfold scrollableFromCloudSelector at h
  obtain ⟨e, _, hfe⟩ := List.exists_of_findSome?_eq_some h
  split at hfe
  next hc => cases hfe; exact hc
  next => simp at hfe

/-- Helper: any element the largest-scrollable fold selects passes the
overflow test and exceeds the client height by more than 50. -/
theorem betterScrollable_fold_sound (l : List Element) :
    ∀ acc : Option Element × Int,
      (∀ e, acc.1 = some e → hasOverflowAuto e ∧ e.scrollHeight > e.clientHeight + 50) →
      ∀ e, (l.foldl betterScrollable acc).1 = some e →
        hasOverflowAuto e ∧ e.scrollHeight > e.clientHeight + 50 := by
  induction l with
  | nil => intro acc hacc e he; exact hacc e he
  | cons x xs ih =>
    intro acc hacc e he
    refine ih (betterScrollable acc x) ?_ e he
    intro f hf
    unfold betterScrollable at hf
    split at hf
    · exact hacc f hf
    · split at hf
      next hc => cases hf; exact ⟨hc.1, hc.2.1⟩
      next => exact hacc f hf

/-- Helper: a record returned by the fallback finder passes the overflow
test and exceeds the client height by more than 50. -/
theorem findLargestScrollableElement_sound (p : Page) (r : ScrollContainer)
    (h : findLargestScrollableElement p = some r) :
    hasOverflowAuto r.element ∧ r.element.scrollHeight > r.element.clientHeight + 50 := by
  unfold findLargestScrollableElement at h
  cases hb : (p.dom.foldl betterScrollable (none, 0)).1 with
  | none => rw [hb] at h; simp at h
  | some best =>
    rw [hb] at h
    cases h
    exact betterScrollable_fold_sound p.dom (none, 0) (by intro e he; simp at he) best hb

/-- Helper: a record returned by the Cloud finder passes the overflow test
and exceeds the client height by more than 10. -/
theorem findCloudScrollContainer_sound (p : Page) (r : ScrollContainer)
    (h : findCloudScrollContainer p = some r) :
    hasOverflowAuto r.element ∧ r.element.scrollHeight > r.element.clientHeight + 10 := by
  unfold findCloudScrollContainer at h
  cases hf : (List.range 5).findSome? (scrollableFromCloudSelector p) with
  | some x =>
    rw [hf] at h
    cases h
    obtain ⟨i, _, hix⟩ := List.exists_of_findSome?_eq_some hf
    exact scrollableFromCloudSelector_sound p i r hix
  | none =>
    rw [hf] at h
    have := findLargestScrollableElement_sound p r h
    exact ⟨this.1, by omega⟩

/-- Helper: when no element of the page passes the overflow test together
with a scroll-height excess of more than 10, every finder returns `null`. -/
theorem no_container_of_no_scrollable (p : Page)
    (hno : ∀ e ∈ p.dom, ¬(hasOverflowAuto e ∧ e.scrollHeight > e.clientHeight + 10)) :
    findServerScrollContainer p = none
    ∧ (∀ i, scrollableFromCloudSelector p i = none)
    ∧ findLargestScrollableElement p = none
    ∧ findCloudScrollContainer p = none
    ∧ findScrollContainer p = none := by
  have hserver : findServerScrollContainer p = none := by
    unfold findServerScrollContainer
    cases hfind : p.dom.find? (fun e => e.isIssueView) with
    | none => rfl
    | some iv =>
      have hiv : iv ∈ p.dom := List.mem_of_find?_eq_some hfind
      simp only [if_neg (hno iv hiv)]
  have hsel : ∀ i, scrollableFromCloudSelector p i = none := by
    intro i
    unfold scrollableFromCloudSelector
    rw [List.findSome?_eq_none_iff]
    intro e he
    have hd : e ∈ p.dom := List.mem_of_mem_filter he
    simp only [if_neg (hno e hd)]
  have hfold : ∀ l : List Element,
      (∀ e ∈ l, ¬(hasOverflowAuto e ∧ e.scrollHeight > e.clientHeight + 10)) →
      l.foldl betterScrollable (none, 0) = (none, 0) := by
    intro l
    induction l with
    | nil => intro _; rfl
    | cons x xs ih =>
      intro hl
      have hstep : betterScrollable (none, 0) x = (none, 0) := by
        unfold betterScrollable
        split
        · rfl
        · rw [if_neg ?hneg]
          case hneg =>
            rintro ⟨hA, hB, _⟩
            exact hl x (List.mem_cons_self x xs) ⟨hA, by omega⟩
      rw [List.foldl_cons, hstep]
      exact ih (by intro e he; exact hl e (List.mem_cons_of_mem x he))
  have hlargest : findLargestScrollableElement p = none := by
    unfold findLargestScrollableElement
    rw [hfold p.dom hno]
  have hcloud : findCloudScrollContainer p = none := by
    unfold findCloudScrollContainer
    rw [List.findSome?_eq_none_iff.mpr (fun i _ => hsel i)]
    exact hlargest
  refine ⟨hserver, hsel, hlargest, hcloud, ?_⟩
  show (if (detect p).detected = false then none
        else if (detect p).type = some ("jira-server") then findServerScrollContainer p
        else if (detect p).type = some ("jira-cloud") then findCloudScrollContainer p
        else
          match findServerScrollContainer p with
          | some r => some r
          | none => findCloudScrollContainer p) = none
  split
  · rfl
  · split
    · exact hserver
    · split
      · exact hcloud
      · rw [hserver]
        exact hcloud

/-- C4: every record returned by `findScrollContainer` — through
`findServerScrollContainer`, `findCloudScrollContainer` or the
`findLargestScrollableElement` fallback — names an element whose computed
overflow-y is `auto` or `scroll` with a scroll height exceeding the client
height by more than the small threshold (10, the smallest the finders use);
and when no element of the page passes both tests, the result is `null`. -/
theorem claim_C4_scroll_container_sound (p : Page) (r : ScrollContainer) :
    ((findServerScrollContainer p = some r ∨ findCloudScrollContainer p = some r
        ∨ findLargestScrollableElement p = some r ∨ findScrollContainer p = some r) →
      hasOverflowAuto r.element ∧ r.element.scrollHeight > r.element.clientHeight + 10)
    ∧ ((∀ e ∈ p.dom, ¬(hasOverflowAuto e ∧ e.scrollHeight > e.clientHeight + 10)) →
        findScrollContainer p = none) := by
  constructor
  · rintro (h | h | h | h)
    · exact findServerScrollContainer_sound p r h
    · exact findCloudScrollContainer_sound p r h
    · have := findLargestScrollableElement_sound p r h
      exact ⟨this.1, by omega⟩
    · replace h :
          (if (detect p).detected = false then none
           else if (detect p).type = some ("jira-server") then findServerScrollContainer p
           else if (detect p).type = some ("jira-cloud") then findCloudScrollContainer p
           else
             match findServerScrollContainer p with
             | some x => some x
             | none => findCloudScrollContainer p) = some r := h
      split at h
      · simp at h
      · split at h
        · exact findServerScrollContainer_sound p r h
        · split at h
          · exact findCloudScrollContainer_sound p r h
          · cases hs : findServerScrollContainer p with
            | some x =>
              rw [hs] at h
              cases h
              exact findServerScrollContainer_sound p r hs
            | none =>
              rw [hs] at h
              exact findCloudScrollContainer_sound p r h
  · intro hno
    exact (no_container_of_no_scrollable p hno).2.2.2.2

/-- C4 witness: on an empty page no element passes, so every finder returns
`null`; the hypothesis-free soundness direction holds vacuously at a dummy
record. -/
theorem claim_C4_witness :
    findScrollContainer
        { hostnameAtlassian := false, pathnameIssueBrowse := false, hasIssueContent := false,
          hasAuiPagePanel := false, hasJiraMeta := true, auiSidebarRect := none,
          viewIssueSidebarRect := none, dom := [] } = none :=
  (claim_C4_scroll_container_sound
      { hostnameAtlassian := false, pathnameIssueBrowse := false, hasIssueContent := false,
        hasAuiPagePanel := false, hasJiraMeta := true, auiSidebarRect := none,
        viewIssueSidebarRect := none, dom := [] }
      { element :=
          { overflowY := "visible", scrollHeight := 0, clientHeight := 0, offsetWidth := 0,
            offsetHeight := 0, isIssueView := false, matchesIssuePanel := false,
            matchesScrollableContainer := false, matchesFoundationContent := false,
            matchesCssOverflow := false, matchesRoleMain := false, rectLeft := 0,
            rectRight := 0, rectTop := 0, rectWidth := 0 },
        type := "", scrollHeight := 0, clientHeight := 0 }).2
    (by intro e he; simp at he)

/-- C6: whenever `detect` reports the page as not detected,
`findScrollContainer` returns `null`. -/
theorem claim_C6_no_container_when_undetected (p : Page)
    (h : (detect p).detected = false) :
    findScrollContainer p = none := by
  show (if (detect p).detected = false then none
        else if (detect p).type = some ("jira-server") then findServerScrollContainer p
        else if (detect p).type = some ("jira-cloud") then findCloudScrollContainer p
        else
          match findServerScrollContainer p with
          | some r => some r
          | none => findCloudScrollContainer p) = none
  rw [if_pos h]

/-- C6 witness: a page with no Jira markers is not detected and yields no
scroll container. -/
theorem claim_C6_witness :
    (detect { hostnameAtlassian := false, pathnameIssueBrowse := false,
              hasIssueContent := false, hasAuiPagePanel := false, hasJiraMeta := false,
              auiSidebarRect := none, viewIssueSidebarRect := none, dom := [] }).detected
        = false
    ∧ findScrollContainer
        { hostnameAtlassian := false, pathnameIssueBrowse := false, hasIssueContent := false,
          hasAuiPagePanel := false, hasJiraMeta := false, auiSidebarRect := none,
          viewIssueSidebarRect := none, dom := [] } = none :=
  ⟨by decide,
   claim_C6_no_container_when_undetected
     { hostnameAtlassian := false, pathnameIssueBrowse := false, hasIssueContent := false,
       hasAuiPagePanel := false, hasJiraMeta := false, auiSidebarRect := none,
       viewIssueSidebarRect := none, dom := [] } (by decide)⟩

/-- Helper: a page that `detect` reports as not detected has no `type`
field. -/
theorem detect_type_of_not_detected (p : Page) (h : (detect p).detected = false) :
    (detect p).type = none := by
  unfold detect at h ⊢
  split at h
  next => simp at h
  next h1 =>
    split at h
    next => simp at h
    next h2 =>
      split at h
      next => simp at h
      next h3 => rw [if_neg h1, if_neg h2, if_neg h3]

/-- C9: `getCenterBounds` returns `null` whenever `detect` classifies the
page as `jira-unknown` or as not detected — only the `jira-server` and
`jira-cloud` types reach a bounds computation — even though
`findScrollContainer` can still return a container on a `jira-unknown`
page. -/
theorem claim_C9_center_bounds_only_server_cloud (p : Page)
    (h : (detect p).type = some ("jira-unknown") ∨ (detect p).detected = false) :
    getCenterBounds p = none
    ∧ ∃ q : Page, (detect q).type = some ("jira-unknown")
        ∧ (findScrollContainer q).isSome = true := by
  constructor
  · have htype : (detect p).type = some ("jira-unknown") ∨ (detect p).type = none := by
      rcases h with h | h
      · exact Or.inl h
      · exact Or.inr (detect_type_of_not_detected p h)
    show (if (detect p).type = some ("jira-server") then getServerCenterBounds p
          else if (detect p).type = some ("jira-cloud") then getCloudCenterBounds p
          else none) = none
    rcases htype with h | h <;> simp [h]
  · refine ⟨{ hostnameAtlassian := false, pathnameIssueBrowse := false,
              hasIssueContent := false, hasAuiPagePanel := false, hasJiraMeta := true,
              auiSidebarRect := none, viewIssueSidebarRect := none,
              dom := [{ overflowY := "auto", scrollHeight := 1000, clientHeight := 500,
                        offsetWidth := 300, offsetHeight := 300, isIssueView := false,
                        matchesIssuePanel := false, matchesScrollableContainer := false,
                        matchesFoundationContent := false, matchesCssOverflow := false,
                        matchesRoleMain := true, rectLeft := 0, rectRight := 0,
                        rectTop := 0, rectWidth := 0 }] }, by decide, by decide⟩

/-- C9 witness: a page detected only through the Jira-marker fallback
(`jira-unknown`) gets no center bounds, while a scroll container still
exists for such pages. -/
theorem claim_C9_witness :
    getCenterBounds
        { hostnameAtlassian := false, pathnameIssueBrowse := false, hasIssueContent := false,
          hasAuiPagePanel := false, hasJiraMeta := true, auiSidebarRect := none,
          viewIssueSidebarRect := none, dom := [] } = none
    ∧ ∃ q : Page, (detect q).type = some ("jira-unknown")
        ∧ (findScrollContainer q).isSome = true :=
  claim_C9_center_bounds_only_server_cloud
    { hostnameAtlassian := false, pathnameIssueBrowse := false, hasIssueContent := false,
      hasAuiPagePanel := false, hasJiraMeta := true, auiSidebarRect := none,
      viewIssueSidebarRect := none, dom := [] }
    (Or.inl (by decide))

end JiraHandler

end Longshot
